import Mathlib

/-!
Verification of the webhook bridge service in src/main.py: a FastAPI
application that receives a JSON webhook payload and relays it to one
configured external URL, either by driving a headless browser page
(POST /webhook) or by a plain outbound HTTP POST (POST /webhook/direct).

The embedding models each route handler as a pure function from the
ambient configuration, the request body parse outcome, and an environment
describing what the external world (the Playwright page, the httpx client,
the upstream server) does, to the HTTP response together with a trace of
the outbound forwarding actions the handler performed.
-/

namespace WebhookBridge

/-- JSON values, as produced by json.loads and consumed by json.dumps:
the inbound payload, the forwarding results and the response bodies are
all JSON in the source. -/
inductive Json where
  | null : Json
  | bool (b : Bool) : Json
  | num (n : Int) : Json
  | str (s : String) : Json
  | arr (elems : List Json) : Json
  | obj (fields : List (String × Json)) : Json

/-- The isinstance(payload, dict) test of src/main.py line 103. -/
def Json.isObj : Json → Bool
  | .obj _ => true
  | _ => false

/-- Field access on a JSON object, used to state what a response body
contains; none on a non-object or a missing key. -/
def Json.getField : Json → String → Option Json
  | .obj fields, key => fields.lookup key
  | _, _ => none

/-- Environment-derived configuration of src/main.py lines 26-27 and the
LOG_LEVEL read in health_check: PORT, WEBHOOK_URL, LOG_LEVEL. -/
structure Config where
  port : Int
  webhook_url : String
  log_level : String
deriving DecidableEq

/-- Default PORT from src/main.py line 26. -/
def defaultPort : Int := 3005

/-- Default WEBHOOK_URL from src/main.py line 27. -/
def defaultWebhookUrl : String :=
  "https://n8n.produkmastah.com/webhook-test/3df77d1c-6227-41ee-b4ea-32b8d02f6405"

/-- Default LOG_LEVEL from src/main.py lines 20 and 88. -/
def defaultLogLevel : String := "INFO"

/-- The configuration when no environment variable is set. -/
def defaultConfig : Config :=
  { port := defaultPort, webhook_url := defaultWebhookUrl, log_level := defaultLogLevel }

/-- An HTTP response produced by a route handler: status code plus JSON body. -/
structure HttpResponse where
  status : Int
  body : Json

/-- The body FastAPI serves for a raised HTTPException: a JSON object with
one detail field. -/
def detailBody (msg : String) : Json := Json.obj [("detail", Json.str msg)]

/-- String conversion of a Starlette HTTPException, as observed by the
str(e) in the except Exception clauses: "status_code: detail". -/
def httpExceptionStr (code : Int) (detail : String) : String :=
  toString code ++ ": " ++ detail

/-- Observable outbound forwarding actions of a request handler:
browserForward is one invocation of forward_via_browser, httpPost is one
client.post call of the direct handler (carrying the target URL, the
payload sent as the JSON-encoded body, and the Content-Type header). -/
inductive Effect where
  | browserForward (payload : Json) (url : String) : Effect
  | httpPost (url : String) (body : Json) (contentType : String) : Effect

/-- Outcome of the fetch performed by the in-page script of src/main.py
lines 145-167: either a response arrived, carrying response.status,
response.statusText and the result of response.json() (none when the body
does not parse as JSON), or the fetch itself rejected with an error
message. -/
inductive FetchOutcome where
  | response (status : Int) (statusText : String) (jsonBody : Option Json) : FetchOutcome
  | failure (message : String) : FetchOutcome

/-- One request view of the shared Playwright page: what page.goto does on
a given URL (return or raise), and what page.evaluate does on a given
serialized payload (raise a driver error, or run the in-page script
against a fetch outcome). Exceptions are carried as their messages. -/
structure BrowserEnv where
  gotoResult : String → Except String Unit
  evalResult : Json → Except String FetchOutcome

/-- The in-page script of src/main.py lines 145-167: on a fetch response
it reports status, statusText and the parsed JSON data (null when JSON
parsing of the body fails); on a fetch rejection it reports status 0,
statusText Network Error and the error message. It never throws. -/
def fetchScript : FetchOutcome → Json
  | .response st stText (some j) =>
      Json.obj [("status", Json.num st), ("statusText", Json.str stText), ("data", j)]
  | .response st stText none =>
      Json.obj [("status", Json.num st), ("statusText", Json.str stText), ("data", Json.null)]
  | .failure msg =>
      Json.obj [("status", Json.num 0), ("statusText", Json.str "Network Error"),
                ("error", Json.str msg)]

/-- The dict built by the except branch of forward_via_browser
(src/main.py lines 175-179). -/
def browserErrorResult (msg : String) : Json :=
  Json.obj [("status", Json.num 500), ("statusText", Json.str "Browser Error"),
            ("error", Json.str msg)]

/-- forward_via_browser (src/main.py lines 130-179): navigate the shared
page to the target URL, then evaluate the fetch script there with the
serialized payload; any exception raised by goto or evaluate is caught and
turned into the status-500 Browser Error dict, so the function always
returns a dict and never raises to its caller. -/
def forward_via_browser (env : BrowserEnv) (url : String) (payload : Json) : Json :=
  match env.gotoResult url with
  | .error msg => browserErrorResult msg
  | .ok _ =>
      match env.evalResult payload with
      | .error msg => browserErrorResult msg
      | .ok outcome => fetchScript outcome

/-- receive_webhook (src/main.py lines 92-128). The request body arrives
as the outcome of await request.json(): a parsed JSON value, or the
message of the json.JSONDecodeError it raised. A decode error is caught by
the dedicated except clause and answered with 400 Invalid JSON payload. A
parsed non-dict payload raises HTTPException(400, "Payload harus berupa
JSON object"); that exception is itself an Exception, so it is caught by
the except Exception clause of the same try statement and re-raised as
HTTPException(500, str(e)) — the client sees a 500, not a 400. A dict
payload is forwarded via the browser and wrapped in a 200 envelope. The
second component lists the forwarding actions performed. -/
def receive_webhook (env : BrowserEnv) (url : String) (reqBody : Except String Json) :
    HttpResponse × List Effect :=
  match reqBody with
  | .error _ => ({ status := 400, body := detailBody "Invalid JSON payload" }, [])
  | .ok payload =>
      if payload.isObj then
        ({ status := 200,
           body := Json.obj [("message", Json.str "Webhook processed successfully"),
                             ("forwarded_to", Json.str url),
                             ("result", forward_via_browser env url payload)] },
         [Effect.browserForward payload url])
      else
        ({ status := 500,
           body := detailBody (httpExceptionStr 400 "Payload harus berupa JSON object") }, [])

/-- The body of the upstream response as seen through httpx:
response.content is empty (so response.json() is never called), or
non-empty but not JSON (response.json() raises, carried as its message),
or parses to a JSON value. -/
inductive UpstreamBody where
  | empty : UpstreamBody
  | invalidJson (decodeErrorMsg : String) : UpstreamBody
  | json (j : Json) : UpstreamBody

/-- The upstream response: its status code and its body. -/
structure UpstreamResponse where
  status_code : Int
  body : UpstreamBody

/-- What client.post does for a given payload: raise a transport error
(carried as its message) or return the upstream response. -/
def DirectEnv : Type := Json → Except String UpstreamResponse

/-- The 200 envelope of the direct handler (src/main.py lines 201-209):
responseJson is response.json() when the body is non-empty, null when it
is empty. -/
def directSuccessBody (url : String) (code : Int) (responseJson : Json) : Json :=
  Json.obj [("message", Json.str "Webhook processed successfully via direct HTTP"),
            ("forwarded_to", Json.str url),
            ("status_code", Json.num code),
            ("response", responseJson)]

/-- receive_webhook_direct (src/main.py lines 181-213). There is no
payload validation: whatever request.json() returns is posted to the
target with Content-Type application/json. Every exception — the JSON
decode error of the request body, a transport error of client.post, or
response.json() raising on a non-empty non-JSON upstream body — falls into
the single except Exception clause and becomes HTTPException(500, str(e)).
Otherwise the upstream status code and parsed body are wrapped in a 200
envelope. -/
def receive_webhook_direct (env : DirectEnv) (url : String)
    (reqBody : Except String Json) : HttpResponse × List Effect :=
  match reqBody with
  | .error msg => ({ status := 500, body := detailBody msg }, [])
  | .ok payload =>
      match env payload with
      | .error msg =>
          ({ status := 500, body := detailBody msg },
           [Effect.httpPost url payload "application/json"])
      | .ok resp =>
          match resp.body with
          | .empty =>
              ({ status := 200, body := directSuccessBody url resp.status_code Json.null },
               [Effect.httpPost url payload "application/json"])
          | .invalidJson msg =>
              ({ status := 500, body := detailBody msg },
               [Effect.httpPost url payload "application/json"])
          | .json j =>
              ({ status := 200, body := directSuccessBody url resp.status_code j },
               [Effect.httpPost url payload "application/json"])

/-- The root handler (src/main.py lines 66-74): a pure snapshot of the
configuration, always status 200. -/
def root_handler (cfg : Config) : HttpResponse :=
  { status := 200,
    body := Json.obj [("status", Json.str "healthy"),
                      ("service", Json.str "webhook-bridge"),
                      ("port", Json.num cfg.port),
                      ("webhook_url", Json.str cfg.webhook_url)] }

/-- health_check (src/main.py lines 76-90): a pure snapshot of the
configuration plus a formatted timestamp, always status 200. -/
def health_check (cfg : Config) (timestamp : String) : HttpResponse :=
  { status := 200,
    body := Json.obj [("status", Json.str "healthy"),
                      ("timestamp", Json.str timestamp),
                      ("config",
                        Json.obj [("port", Json.num cfg.port),
                                  ("webhook_url", Json.str cfg.webhook_url),
                                  ("log_level", Json.str cfg.log_level)])] }

/-- The step of the lifespan (src/main.py lines 34-56) at which an
exception is first raised, if any: startCall is async_playwright().start(),
launchCall is chromium.launch, newPageCall is browser.new_page, serveBody
is an exception thrown into the yield while the app serves. -/
inductive FailPoint where
  | startCall
  | launchCall
  | newPageCall
  | serveBody
deriving DecidableEq

/-- The two cleanup actions of the finally block of lifespan:
browser.close() and playwright.stop(). -/
inductive CleanupAction where
  | closeBrowser
  | stopPlaywright
deriving DecidableEq, BEq

/-- Whether the local variable playwright was assigned, i.e. whether
async_playwright().start() returned: exactly when the first failure is not
at startCall. This is the condition the finally block tests with
quote-playwright-in-locals. -/
def driverStarted : Option FailPoint → Bool
  | some .startCall => false
  | _ => true

/-- Whether the global browser was assigned, i.e. whether chromium.launch
returned: exactly when the first failure is not at startCall or
launchCall. This is the condition the finally block tests with if browser. -/
def browserCreated : Option FailPoint → Bool
  | some .startCall => false
  | some .launchCall => false
  | _ => true

/-- lifespan (src/main.py lines 34-56), traced by where the first
exception arises. The except clause logs and re-raises; the finally block
then runs unconditionally: it closes the browser when the global was set
and stops playwright when the local exists. Returns the cleanup actions in
the order performed, and whether the lifespan raised to its caller.
Case by case from the source: a failure in start() leaves both browser and
playwright unset; a failure in launch leaves only playwright set; a
failure in new_page or thrown into the yield leaves both set; normal
shutdown also reaches the finally with both set. -/
def lifespan : Option FailPoint → List CleanupAction × Bool
  | some .startCall => ([], true)
  | some .launchCall => ([CleanupAction.stopPlaywright], true)
  | some .newPageCall => ([CleanupAction.closeBrowser, CleanupAction.stopPlaywright], true)
  | some .serveBody => ([CleanupAction.closeBrowser, CleanupAction.stopPlaywright], true)
  | none => ([CleanupAction.closeBrowser, CleanupAction.stopPlaywright], false)

/-! Concrete environments used as witnesses and counterexample inputs. -/

/-- A sample JSON-object payload. -/
def payloadEvent : Json := Json.obj [("event", Json.str "ping")]

/-- A browser environment in which the target URL is unreachable:
page.goto raises a connection-refused error, and even the in-page fetch
would fail if it were ever reached. -/
def unreachableBrowserEnv : BrowserEnv :=
  { gotoResult := fun _ => Except.error "net::ERR_CONNECTION_REFUSED",
    evalResult := fun _ => Except.ok (FetchOutcome.failure "Failed to fetch") }

/-- A browser environment in which navigation and the in-page fetch both
succeed and the upstream answers 200 OK with a JSON body. -/
def happyBrowserEnv : BrowserEnv :=
  { gotoResult := fun _ => Except.ok (),
    evalResult := fun _ =>
      Except.ok (FetchOutcome.response 200 "OK" (some (Json.obj [("ok", Json.bool true)]))) }

/-- A direct environment in which the target URL is unreachable:
client.post raises a transport error. -/
def unreachableDirectEnv : DirectEnv := fun _ => Except.error "All connection attempts failed"

/-- A direct environment in which the upstream answers 200 with an empty
body. -/
def okDirectEnv : DirectEnv :=
  fun _ => Except.ok { status_code := 200, body := UpstreamBody.empty }

/-- Every branch of forward_via_browser produces a dict that carries a
status field: 500 on a caught driving error, the fetch status on a
response (whether or not its body parsed as JSON), 0 on an in-page
network error. -/
theorem forward_via_browser_has_status (env : BrowserEnv) (url : String) (payload : Json) :
    ∃ v, (forward_via_browser env url payload).getField "status" = some v := by
  unfold forward_via_browser
  rcases env.gotoResult url with m | u
  · exact ⟨Json.num 500, rfl⟩
  · rcases env.evalResult payload with m | oc
    · exact ⟨Json.num 500, rfl⟩
    · rcases oc with ⟨st, sTxt, jb⟩ | m
      · rcases jb with _ | j
        · exact ⟨Json.num st, rfl⟩
        · exact ⟨Json.num st, rfl⟩
      · exact ⟨Json.num 0, rfl⟩

/-- C1: the claim says POST /webhook with a valid-JSON non-object body
(here 42) returns an HTTP 400 InvalidPayload error and the browser adapter
is not invoked. Evaluating the handler at that input shows the code
instead answers HTTP 500: the HTTPException(400, "Payload harus berupa
JSON object") it raises is itself an Exception, so the except Exception
clause of the same handler catches it and re-raises it as
HTTPException(500, str(e)). The browser adapter is indeed not invoked
(the forwarding trace is empty). -/
theorem C1_non_object_body_gives_500 (env : BrowserEnv) (url : String) :
    receive_webhook env url (Except.ok (Json.num 42)) =
      ({ status := 500,
         body := detailBody (httpExceptionStr 400 "Payload harus berupa JSON object") }, []) ∧
    (receive_webhook env url (Except.ok (Json.num 42))).1.status ≠ 400 := by
  have h : (receive_webhook env url (Except.ok (Json.num 42))).1.status = 500 := rfl
  refine ⟨rfl, ?_⟩
  rw [h]
  decide

/-- C2 counterexample: with the target URL unreachable, page.goto raises,
so the result embedded in the HTTP 200 envelope of POST /webhook is the
Browser Error dict with status 500 — not, as the claim states, a dict with
status 0 and statusText Network Error. The direct endpoint does return
HTTP 500 for the same unreachable target. -/
theorem C2_unreachable_gives_browser_error_not_network_error :
    (receive_webhook unreachableBrowserEnv defaultWebhookUrl (Except.ok payloadEvent)).1.status
      = 200 ∧
    (receive_webhook unreachableBrowserEnv defaultWebhookUrl
        (Except.ok payloadEvent)).1.body.getField "result" =
      some (browserErrorResult "net::ERR_CONNECTION_REFUSED") ∧
    (browserErrorResult "net::ERR_CONNECTION_REFUSED").getField "status" =
      some (Json.num 500) ∧
    (browserErrorResult "net::ERR_CONNECTION_REFUSED").getField "statusText" =
      some (Json.str "Browser Error") ∧
    (500 : Int) ≠ 0 ∧
    "Browser Error" ≠ "Network Error" ∧
    (receive_webhook_direct unreachableDirectEnv defaultWebhookUrl
        (Except.ok payloadEvent)).1.status = 500 :=
  ⟨rfl, rfl, rfl, rfl, by decide, by decide, rfl⟩

/-- C2 amended: when the configured target URL is unreachable — page.goto
raises a navigation error and client.post raises a transport error — POST
/webhook still returns HTTP 200, but its embedded result is the Browser
Error dict with status 500 (the status-0 Network Error result arises only
when navigation succeeds and the in-page fetch then fails), while POST
/webhook/direct returns HTTP 500: the two endpoints do fail
asymmetrically. -/
theorem C2_unreachable_amended (benv : BrowserEnv) (denv : DirectEnv) (url : String)
    (fields : List (String × Json)) (gmsg dmsg : String)
    (hgoto : benv.gotoResult url = Except.error gmsg)
    (hpost : denv (Json.obj fields) = Except.error dmsg) :
    (receive_webhook benv url (Except.ok (Json.obj fields))).1.status = 200 ∧
    (receive_webhook benv url (Except.ok (Json.obj fields))).1.body.getField "result" =
      some (browserErrorResult gmsg) ∧
    (browserErrorResult gmsg).getField "status" = some (Json.num 500) ∧
    (browserErrorResult gmsg).getField "statusText" = some (Json.str "Browser Error") ∧
    (receive_webhook_direct denv url (Except.ok (Json.obj fields))).1.status = 500 := by
  have hfwd : forward_via_browser benv url (Json.obj fields) = browserErrorResult gmsg := by
    unfold forward_via_browser
    rw [hgoto]
  have hres : (receive_webhook benv url
      (Except.ok (Json.obj fields))).1.body.getField "result" =
      some (forward_via_browser benv url (Json.obj fields)) := rfl
  refine ⟨rfl, ?_, rfl, rfl, ?_⟩
  · rw [hres, hfwd]
  · simp only [receive_webhook_direct, hpost]

/-- Witness for the amended C2 at a concrete unreachable environment. -/
theorem C2_unreachable_amended_witness :
    (receive_webhook unreachableBrowserEnv defaultWebhookUrl
        (Except.ok (Json.obj [("event", Json.str "ping")]))).1.status = 200 ∧
    (receive_webhook unreachableBrowserEnv defaultWebhookUrl
        (Except.ok (Json.obj [("event", Json.str "ping")]))).1.body.getField "result" =
      some (browserErrorResult "net::ERR_CONNECTION_REFUSED") ∧
    (browserErrorResult "net::ERR_CONNECTION_REFUSED").getField "status" =
      some (Json.num 500) ∧
    (browserErrorResult "net::ERR_CONNECTION_REFUSED").getField "statusText" =
      some (Json.str "Browser Error") ∧
    (receive_webhook_direct unreachableDirectEnv defaultWebhookUrl
        (Except.ok (Json.obj [("event", Json.str "ping")]))).1.status = 500 :=
  C2_unreachable_amended unreachableBrowserEnv unreachableDirectEnv defaultWebhookUrl
    [("event", Json.str "ping")] "net::ERR_CONNECTION_REFUSED"
    "All connection attempts failed" rfl rfl

/-- C3 counterexample: POST /webhook/direct does not validate the payload.
With body 42 (valid JSON, not an object) it answers HTTP 200, not 400, and
the Direct-Relay Adapter is invoked (one POST in the trace); with a body
that is not valid JSON it answers HTTP 500, not 400. -/
theorem C3_direct_accepts_non_object :
    (receive_webhook_direct okDirectEnv defaultWebhookUrl
        (Except.ok (Json.num 42))).1.status = 200 ∧
    (receive_webhook_direct okDirectEnv defaultWebhookUrl
        (Except.ok (Json.num 42))).1.status ≠ 400 ∧
    (receive_webhook_direct okDirectEnv defaultWebhookUrl (Except.ok (Json.num 42))).2 =
      [Effect.httpPost defaultWebhookUrl (Json.num 42) "application/json"] ∧
    (receive_webhook_direct okDirectEnv defaultWebhookUrl
        (Except.error "Expecting value: line 1 column 1 (char 0)")).1.status = 500 := by
  have h : (receive_webhook_direct okDirectEnv defaultWebhookUrl
      (Except.ok (Json.num 42))).1.status = 200 := rfl
  refine ⟨rfl, ?_, rfl, rfl⟩
  rw [h]
  decide

/-- C3 amended: POST /webhook/direct performs no payload validation at
all: every successfully parsed JSON body, object or not, is handed
unchanged to the Direct-Relay Adapter (exactly one POST with Content-Type
application/json in the trace), and a body that is not valid JSON is
answered with HTTP 500 carrying the decode error message as detail — not
with the 400 InvalidPayload error of POST /webhook. -/
theorem C3_direct_has_no_validation (env : DirectEnv) (url : String) (p : Json)
    (msg : String) :
    (receive_webhook_direct env url (Except.ok p)).2 =
      [Effect.httpPost url p "application/json"] ∧
    receive_webhook_direct env url (Except.error msg) =
      ({ status := 500, body := detailBody msg }, []) := by
  constructor
  · rcases henv : env p with m | resp
    · simp [receive_webhook_direct, henv]
    · rcases resp with ⟨st, bd⟩
      rcases bd with _ | m | j <;> simp [receive_webhook_direct, henv]
  · rfl

/-- C4: the Browser-Relay Adapter never raises to its caller — in the
embedding it is a total function into result dicts — and whenever driving
the browser fails (page.goto raises, or page.evaluate raises), the caught
error is reported as the dict with status 500, statusText Browser Error
and the error message in the error field. -/
theorem C4_browser_adapter_never_raises (env : BrowserEnv) (url : String) (payload : Json)
    (msg : String)
    (h : env.gotoResult url = Except.error msg ∨
         (env.gotoResult url = Except.ok () ∧ env.evalResult payload = Except.error msg)) :
    forward_via_browser env url payload = browserErrorResult msg ∧
    (browserErrorResult msg).getField "status" = some (Json.num 500) ∧
    (browserErrorResult msg).getField "statusText" = some (Json.str "Browser Error") ∧
    (browserErrorResult msg).getField "error" = some (Json.str msg) := by
  refine ⟨?_, rfl, rfl, rfl⟩
  unfold forward_via_browser
  rcases h with hg | ⟨hg, he⟩
  · rw [hg]
  · rw [hg, he]

/-- Witness for C4 at a concrete navigation failure. -/
theorem C4_browser_adapter_never_raises_witness :
    forward_via_browser unreachableBrowserEnv defaultWebhookUrl payloadEvent =
      browserErrorResult "net::ERR_CONNECTION_REFUSED" ∧
    (browserErrorResult "net::ERR_CONNECTION_REFUSED").getField "status" =
      some (Json.num 500) ∧
    (browserErrorResult "net::ERR_CONNECTION_REFUSED").getField "statusText" =
      some (Json.str "Browser Error") ∧
    (browserErrorResult "net::ERR_CONNECTION_REFUSED").getField "error" =
      some (Json.str "net::ERR_CONNECTION_REFUSED") :=
  C4_browser_adapter_never_raises unreachableBrowserEnv defaultWebhookUrl payloadEvent
    "net::ERR_CONNECTION_REFUSED" (Or.inl rfl)

/-- C5: for every JSON-object payload (an obj with any field list) and
every behaviour of the browser environment — successful fetch, in-page
JSON parse failure, in-page network error, or browser-driving error —
POST /webhook returns HTTP 200 with forwarded_to equal to the configured
WEBHOOK_URL and a result object carrying a status field. -/
theorem C5_webhook_success_envelope (env : BrowserEnv) (url : String)
    (fields : List (String × Json)) :
    (receive_webhook env url (Except.ok (Json.obj fields))).1.status = 200 ∧
    (receive_webhook env url (Except.ok (Json.obj fields))).1.body.getField "forwarded_to" =
      some (Json.str url) ∧
    ∃ v, ((receive_webhook env url
        (Except.ok (Json.obj fields))).1.body.getField "result").bind
          (fun r => r.getField "status") = some v := by
  refine ⟨rfl, rfl, ?_⟩
  have hres : (receive_webhook env url
      (Except.ok (Json.obj fields))).1.body.getField "result" =
      some (forward_via_browser env url (Json.obj fields)) := rfl
  rw [hres]
  exact forward_via_browser_has_status env url (Json.obj fields)

/-- C6: a request body that is not syntactically valid JSON makes
request.json() raise json.JSONDecodeError, which the dedicated except
clause answers with HTTP 400 and detail Invalid JSON payload — not with an
HTTP 500. -/
theorem C6_malformed_json_gives_400 (env : BrowserEnv) (url : String) (msg : String) :
    receive_webhook env url (Except.error msg) =
      ({ status := 400, body := detailBody "Invalid JSON payload" }, []) ∧
    (receive_webhook env url (Except.error msg)).1.status ≠ 500 := by
  have h : (receive_webhook env url (Except.error msg)).1.status = 400 := rfl
  refine ⟨rfl, ?_⟩
  rw [h]
  decide

/-- C7: for every payload and target URL, the Direct-Relay Adapter issues
exactly one HTTP POST carrying the payload as JSON-encoded body with
header Content-Type application/json, and the success envelope reports the
upstream status code together with the parsed JSON content of a non-empty
upstream body, or null when the upstream body is empty. -/
theorem C7_direct_adapter_contract (url : String) (payload : Json) (st : Int) (j : Json) :
    receive_webhook_direct
        (fun _ => Except.ok { status_code := st, body := UpstreamBody.empty })
        url (Except.ok payload) =
      ({ status := 200, body := directSuccessBody url st Json.null },
       [Effect.httpPost url payload "application/json"]) ∧
    receive_webhook_direct
        (fun _ => Except.ok { status_code := st, body := UpstreamBody.json j })
        url (Except.ok payload) =
      ({ status := 200, body := directSuccessBody url st j },
       [Effect.httpPost url payload "application/json"]) :=
  ⟨rfl, rfl⟩

/-- C8: GET /health always answers 200 with config.port, config.webhook_url
and config.log_level equal to the configured values, and GET / always
answers 200 with the service-name, port and target-URL snapshot; both
handlers are pure functions of the configuration (and the formatted
timestamp) in the embedding, with no effect on program state. -/
theorem C8_health_endpoints_snapshot (cfg : Config) (ts : String) :
    (health_check cfg ts).status = 200 ∧
    ((health_check cfg ts).body.getField "config").bind (fun c => c.getField "port") =
      some (Json.num cfg.port) ∧
    ((health_check cfg ts).body.getField "config").bind (fun c => c.getField "webhook_url") =
      some (Json.str cfg.webhook_url) ∧
    ((health_check cfg ts).body.getField "config").bind (fun c => c.getField "log_level") =
      some (Json.str cfg.log_level) ∧
    (root_handler cfg).status = 200 ∧
    (root_handler cfg).body.getField "service" = some (Json.str "webhook-bridge") ∧
    (root_handler cfg).body.getField "port" = some (Json.num cfg.port) ∧
    (root_handler cfg).body.getField "webhook_url" = some (Json.str cfg.webhook_url) :=
  ⟨rfl, rfl, rfl, rfl, rfl, rfl, rfl, rfl⟩

/-- C9: whatever point startup or serving fails at (or none), the finally
block of the lifespan runs exactly once: it closes the browser exactly
once whenever one was created (and never otherwise), and stops the
automation driver exactly once whenever it was started (and never
otherwise). -/
theorem C9_shutdown_cleanup_exact (failAt : Option FailPoint) :
    ((lifespan failAt).1.count CleanupAction.closeBrowser =
        if browserCreated failAt then 1 else 0) ∧
    ((lifespan failAt).1.count CleanupAction.stopPlaywright =
        if driverStarted failAt then 1 else 0) := by
  rcases failAt with _ | f
  · exact ⟨by decide, by decide⟩
  · cases f <;> exact ⟨by decide, by decide⟩

/-- C10: when the upstream answers with any status code (404 and 500
included) and an empty or JSON body, POST /webhook/direct returns HTTP 200
and embeds that upstream status in the status_code field of its envelope;
only a transport error of client.post, or response.json() raising on a
non-empty non-JSON upstream body, produce the top-level HTTP 500. -/
theorem C10_direct_embeds_upstream_status (url : String) (payload : Json) (st : Int)
    (j : Json) (msg : String) :
    ((receive_webhook_direct
        (fun _ => Except.ok { status_code := st, body := UpstreamBody.empty })
        url (Except.ok payload)).1.status = 200 ∧
     (receive_webhook_direct
        (fun _ => Except.ok { status_code := st, body := UpstreamBody.empty })
        url (Except.ok payload)).1.body.getField "status_code" = some (Json.num st)) ∧
    ((receive_webhook_direct
        (fun _ => Except.ok { status_code := st, body := UpstreamBody.json j })
        url (Except.ok payload)).1.status = 200 ∧
     (receive_webhook_direct
        (fun _ => Except.ok { status_code := st, body := UpstreamBody.json j })
        url (Except.ok payload)).1.body.getField "status_code" = some (Json.num st)) ∧
    (receive_webhook_direct
        (fun _ => Except.ok { status_code := st, body := UpstreamBody.invalidJson msg })
        url (Except.ok payload)).1.status = 500 ∧
    (receive_webhook_direct (fun _ => Except.error msg) url
        (Except.ok payload)).1.status = 500 :=
  ⟨⟨rfl, rfl⟩, ⟨rfl, rfl⟩, rfl, rfl⟩

end WebhookBridge
